import Mathlib

/-!
Verification of the data-profiling / chart-recommendation engine of the
dashboard repository (useDataAnalyzer.ts).  JavaScript values occurring in
parsed JSON rows are shallowly embedded as `JSValue`; JS numbers are modelled
as exact rationals (the values exercised here are small integers and simple
fractions, where IEEE doubles behave exactly like `ℚ`).  `null` and
`undefined` are merged into one constructor since the analyzer only ever
tests `value === null || value === undefined` together.  The behaviour of the
host `Date.parse` is environment-dependent, so it is threaded through the
definitions as an explicit boolean predicate `dp : String → Bool`.
-/

namespace DashboardTest

/-- FieldType from useDataAnalyzer.ts. -/
inductive FieldType where
  | numerical
  | categorical
  | temporal
  | unknown
deriving DecidableEq, Repr

/-- Shallow embedding of JavaScript values appearing in loaded data.
`date b` is a JS `Date` object (`b` = whether its time value is valid). -/
inductive JSValue where
  | vnull
  | num (q : ℚ)
  | nan
  | str (s : String)
  | bool (b : Bool)
  | date (valid : Bool)
  | arr (elems : List JSValue)
  | obj (fields : List (String × JSValue))

/-- Property read `v[k]`; `undefined` (here `vnull`) on a missing key or a
non-object receiver.  (JS throws a TypeError when the receiver is
`null`/`undefined`; in the analyzer every such access sits inside the
`try` of `loadJSON`, and no input considered here reaches that corner.) -/
def JSValue.getProp (v : JSValue) (k : String) : JSValue :=
  match v with
  | .obj fs =>
    match fs.find? (fun p => p.1 == k) with
    | some p => p.2
    | none => .vnull
  | _ => .vnull

/-- The JS `k in v` test (modelled as `false` on non-object receivers). -/
def JSValue.hasProp (v : JSValue) (k : String) : Bool :=
  match v with
  | .obj fs => fs.any (fun p => p.1 == k)
  | _ => false

/-- `Object.keys` (insertion order). -/
def JSValue.keys (v : JSValue) : List String :=
  match v with
  | .obj fs => fs.map Prod.fst
  | _ => []

/-- `Object.values` (insertion order). -/
def JSValue.values (v : JSValue) : List JSValue :=
  match v with
  | .obj fs => fs.map Prod.snd
  | _ => []

/-- `Array.isArray`. -/
def JSValue.isArr (v : JSValue) : Bool :=
  match v with
  | .arr _ => true
  | _ => false

/-- `typeof v === 'number'` (note: `NaN` is of type number in JS). -/
def JSValue.isNumberType (v : JSValue) : Bool :=
  match v with
  | .num _ => true
  | .nan => true
  | _ => false

/-- JS truthiness. -/
def JSValue.truthy (v : JSValue) : Bool :=
  match v with
  | .vnull => false
  | .num q => q != 0
  | .nan => false
  | .str s => s != ""
  | .bool b => b
  | .date _ => true
  | .arr _ => true
  | .obj _ => true

/-- JS `String(n)` on a number.  Exact for integers (the only case the
claims exercise); non-integral rationals are rendered with an injective
marker so that distinct numbers stay distinct under string coercion,
matching the injectivity of JS number-to-string on doubles. -/
def jsNumToString (q : ℚ) : String :=
  if q.den = 1 then toString q.num else "ratio " ++ toString q.num ++ "/" ++ toString q.den

/-- JS `String(v)` for the value shapes stored as samples/categories. -/
def jsDisplay (v : JSValue) : String :=
  match v with
  | .str s => s
  | .num q => jsNumToString q
  | .nan => "NaN"
  | .bool b => cond b "true" "false"
  | .vnull => "null"
  | .date _ => "Date"
  | .arr _ => ""
  | .obj _ => "[object Object]"

/-- `String(v || '')`: falsy values coerce to the empty string. -/
def jsStrOrEmpty (v : JSValue) : String :=
  if v.truthy then jsDisplay v else ""

/-- JS `String.prototype.trim` (whitespace stripped from both ends),
modelled over the character list. -/
def jsTrim (s : String) : String :=
  String.mk (((s.data.dropWhile Char.isWhitespace).reverse.dropWhile Char.isWhitespace).reverse)

/-- JS `String.prototype.toLowerCase` (character-wise). -/
def strToLower (s : String) : String :=
  String.mk (s.data.map Char.toLower)

/-- Split a character list on a separator character (the `split` used on
CSV text; splitting the empty list yields one empty field, as in JS). -/
def splitOnChar (c : Char) : List Char → List (List Char)
  | [] => [[]]
  | a :: rest =>
    let r := splitOnChar c rest
    if a = c then [] :: r
    else
      match r with
      | h :: t => (a :: h) :: t
      | [] => [[a]]

/-! ### JS numeric parsing (`Number(string)`)

`Number` on a string: trims whitespace; the empty remainder is `0`;
otherwise a signed decimal literal `[+-]? (digits [. digits*]? | . digits+)
([eE][+-]?digits+)?`.  (The JS grammar additionally accepts `Infinity` and
radix-prefixed literals, which no input of this development contains.) -/

/-- Value of a digit string, most significant first. -/
def digitsVal (cs : List Char) : Nat :=
  cs.foldl (fun a c => a * 10 + (c.toNat - 48)) 0

/-- Parse the unsigned mantissa; returns its value and the rest. -/
def parseMantissa (cs : List Char) : Option (ℚ × List Char) :=
  let intPart := cs.takeWhile Char.isDigit
  let rest := cs.dropWhile Char.isDigit
  match rest with
  | '.' :: rest2 =>
    let fracPart := rest2.takeWhile Char.isDigit
    let rest3 := rest2.dropWhile Char.isDigit
    if intPart.isEmpty && fracPart.isEmpty then none
    else some ((digitsVal intPart : ℚ) + (digitsVal fracPart : ℚ) * mkRat 1 (10 ^ fracPart.length), rest3)
  | _ =>
    if intPart.isEmpty then none else some ((digitsVal intPart : ℚ), rest)

/-- Parse an optional exponent suffix; fails if an `e` is not followed by
a well-formed exponent. -/
def parseExpPart (cs : List Char) : Option (Int × List Char) :=
  match cs with
  | c :: rest =>
    if c = 'e' ∨ c = 'E' then
      let (sgn, rest1) : Int × List Char :=
        match rest with
        | '+' :: r => (1, r)
        | '-' :: r => (-1, r)
        | _ => (1, rest)
      let ds := rest1.takeWhile Char.isDigit
      let rest2 := rest1.dropWhile Char.isDigit
      if ds.isEmpty then none else some (sgn * (digitsVal ds : Int), rest2)
    else some (0, cs)
  | [] => some (0, [])

/-- Scale a rational by a power of ten. -/
def scalePow10 (m : ℚ) (e : Int) : ℚ :=
  if 0 ≤ e then m * (10 : ℚ) ^ e.toNat else m * mkRat 1 (10 ^ (-e).toNat)

/-- Parse a complete (already trimmed, non-empty) numeric literal. -/
def parseJSNumberCore (cs : List Char) : Option ℚ :=
  let (sgn, cs1) : ℚ × List Char :=
    match cs with
    | '+' :: r => (1, r)
    | '-' :: r => (-1, r)
    | _ => (1, cs)
  match parseMantissa cs1 with
  | none => none
  | some (m, rest) =>
    match parseExpPart rest with
    | none => none
    | some (e, rest2) => if rest2.isEmpty then some (sgn * scalePow10 m e) else none

/-- JS `Number(s)` on a string, as `none` when the result is `NaN`. -/
def parseJSNumber (s : String) : Option ℚ :=
  let t := jsTrim s
  if t = "" then some 0 else parseJSNumberCore t.data

/-! ### Date-pattern tests of `detectValueType` -/

/-- Regex `^\d{4}-\d{2}-\d{2}$` (and the `/` variant via `sep`). -/
def matchYMD (sep : Char) (cs : List Char) : Bool :=
  match cs with
  | [y1, y2, y3, y4, s1, m1, m2, s2, d1, d2] =>
    y1.isDigit && y2.isDigit && y3.isDigit && y4.isDigit &&
    (s1 == sep) && m1.isDigit && m2.isDigit && (s2 == sep) && d1.isDigit && d2.isDigit
  | _ => false

/-- Regex `^\d{2}:\d{2}(:\d{2})?$`. -/
def matchClock (cs : List Char) : Bool :=
  match cs with
  | [h1, h2, c1, m1, m2] =>
    h1.isDigit && h2.isDigit && (c1 == ':') && m1.isDigit && m2.isDigit
  | [h1, h2, c1, m1, m2, c2, s1, s2] =>
    h1.isDigit && h2.isDigit && (c1 == ':') && m1.isDigit && m2.isDigit &&
    (c2 == ':') && s1.isDigit && s2.isDigit
  | _ => false

/-- Regexes `^\d{4}-\d{2}-\d{2}T\d{2}:\d{2}` and `^\d{4}-\d{2}-\d{2}\s\d{2}:\d{2}`
(prefix matches); `mid` selects the separator class between date and time. -/
def matchDateTime (mid : Char → Bool) (cs : List Char) : Bool :=
  match cs with
  | y1 :: y2 :: y3 :: y4 :: s1 :: m1 :: m2 :: s2 :: d1 :: d2 :: t :: h1 :: h2 :: c1 :: n1 :: n2 :: _ =>
    y1.isDigit && y2.isDigit && y3.isDigit && y4.isDigit &&
    (s1 == '-') && m1.isDigit && m2.isDigit && (s2 == '-') && d1.isDigit && d2.isDigit &&
    mid t && h1.isDigit && h2.isDigit && (c1 == ':') && n1.isDigit && n2.isDigit
  | _ => false

/-- Regex `^(Jan|Feb|...|Dec)/i` (prefix match, case-insensitive). -/
def matchMonthName (s : String) : Bool :=
  ["jan", "feb", "mar", "apr", "may", "jun", "jul", "aug", "sep", "oct", "nov", "dec"].contains
    (strToLower (s.take 3))

/-- Disjunction of the `datePatterns` array of `detectValueType`. -/
def matchesDatePattern (t : String) : Bool :=
  matchYMD '-' t.data || matchYMD '/' t.data || matchClock t.data ||
  matchDateTime (fun c => c == 'T') t.data ||
  matchDateTime Char.isWhitespace t.data ||
  matchMonthName t

/-- Regex `^\d+$`. -/
def isPureDigits (cs : List Char) : Bool :=
  !cs.isEmpty && cs.all Char.isDigit

/-- detectValueType from useDataAnalyzer.ts; `dp` models the host
`Date.parse(s)` succeeding (returning a non-NaN time value). -/
def detectValueType (dp : String → Bool) (value : JSValue) : FieldType :=
  match value with
  | .vnull => .unknown
  | .num _ => .numerical
  | .nan => .unknown
  | .bool _ => .unknown
  | .arr _ => .unknown
  | .obj _ => .unknown
  | .date valid => if valid then .temporal else .unknown
  | .str s =>
    if s = "" then .unknown
    else
      let trimmed := jsTrim s
      -- `Number(trimmed)`: since `trimmed` carries no outer whitespace,
      -- the literal grammar applies to its characters directly (and the
      -- empty case is excluded by the `trimmed !== ''` conjunct).
      if (parseJSNumberCore trimmed.data).isSome ∧ trimmed ≠ "" then .numerical
      else if matchesDatePattern trimmed then .temporal
      else if trimmed.length > 6 ∧ dp trimmed ∧ ¬ isPureDigits trimmed.data then .temporal
      else .categorical

/-! ### Field profiling (`analyzeField`) -/

/-- The `value === null || value === undefined || value === ''` test that
feeds `nullCount`. -/
def isNullish (v : JSValue) : Bool :=
  match v with
  | .vnull => true
  | .str s => s == ""
  | _ => false

/-- JS `Number(v)` as used for the min/max pass, with `NaN` results as
`none`.  `validValues` only ever holds numbers, strings and valid dates;
a `Date` coerces to its millisecond timestamp in JS, which no claim
exercises, so it is conservatively dropped here. -/
def jsToNumber (v : JSValue) : Option ℚ :=
  match v with
  | .num q => some q
  | .str s => parseJSNumber s
  | .bool b => some (cond b 1 0)
  | _ => none

/-- The non-null values of a field, in order. -/
def nonNullValues (values : List JSValue) : List JSValue :=
  values.filter (fun v => !isNullish v)

/-- Tally of one `FieldType` over the non-null values (the `typeCount`
record built by `analyzeField`). -/
def typeCountOf (dp : String → Bool) (values : List JSValue) (t : FieldType) : Nat :=
  ((nonNullValues values).filter (fun v => decide (detectValueType dp v = t))).length

/-- The `validValues` array of `analyzeField`: non-null values whose
detected type is not `unknown`. -/
def validValuesOf (dp : String → Bool) (values : List JSValue) : List JSValue :=
  (nonNullValues values).filter (fun v => decide (detectValueType dp v ≠ FieldType.unknown))

/-- The dominant-type loop of `analyzeField`: iterate
`Object.entries(typeCount)` in insertion order (numerical, categorical,
temporal, unknown), keeping the first strict maximum among non-unknown
types. -/
def dominantType (cn cc ct cu : Nat) : FieldType :=
  let step := fun (acc : FieldType × Nat) (p : FieldType × Nat) =>
    if p.2 > acc.2 ∧ p.1 ≠ FieldType.unknown then p else acc
  ([(FieldType.numerical, cn), (FieldType.categorical, cc),
    (FieldType.temporal, ct), (FieldType.unknown, cu)].foldl step (FieldType.unknown, 0)).1

/-- FieldProfile from useDataAnalyzer.ts. -/
structure FieldProfile where
  name : String
  type : FieldType
  sampleValues : List JSValue
  uniqueCount : Nat
  nullCount : Nat
  min : Option ℚ := none
  max : Option ℚ := none
  isPercentage : Bool := false

/-- The dominant type computed by `analyzeField`. -/
def fieldDominant (dp : String → Bool) (values : List JSValue) : FieldType :=
  dominantType (typeCountOf dp values .numerical) (typeCountOf dp values .categorical)
    (typeCountOf dp values .temporal) (typeCountOf dp values .unknown)

/-- `validValues.map(Number).filter(n => !isNaN(n))`. -/
def fieldNumbers (dp : String → Bool) (values : List JSValue) : List ℚ :=
  (validValuesOf dp values).filterMap jsToNumber

/-- The `min` of `analyzeField` (set only for a numerical dominant type
with at least one parseable number). -/
def fieldMin (dp : String → Bool) (values : List JSValue) : Option ℚ :=
  if fieldDominant dp values = FieldType.numerical then (fieldNumbers dp values).min? else none

/-- The `max` of `analyzeField`. -/
def fieldMax (dp : String → Bool) (values : List JSValue) : Option ℚ :=
  if fieldDominant dp values = FieldType.numerical then (fieldNumbers dp values).max? else none

/-- The `isPercentage` heuristic of `analyzeField`:
`(min>=0 && max<=100) || (min>=0 && max<=1)`. -/
def fieldIsPercentage (dp : String → Bool) (values : List JSValue) : Bool :=
  match fieldMin dp values, fieldMax dp values with
  | some a, some b => decide ((0 ≤ a ∧ b ≤ 100) ∨ (0 ≤ a ∧ b ≤ 1))
  | _, _ => false

/-- analyzeField from useDataAnalyzer.ts. -/
def analyzeField (dp : String → Bool) (name : String) (values : List JSValue) : FieldProfile :=
  { name := name
    type := fieldDominant dp values
    sampleValues := (validValuesOf dp values).take 5
    uniqueCount := ((validValuesOf dp values).map jsDisplay).dedup.length
    nullCount := (values.filter isNullish).length
    min := fieldMin dp values
    max := fieldMax dp values
    isPercentage := fieldIsPercentage dp values }

/-! ### Chart recommendations -/

/-- The WidgetType values the analyzer emits. -/
inductive ChartType where
  | line | area | stepLine | bar | pie | radialBar | metric | stackedBar
  | scatter | bubble | dotPlot | heatmap | radar | sankey | treemap
  | activity | dataGrid | boxPlot | admixture | phylogenetic
deriving DecidableEq, Repr

/-- Confidence tiers. -/
inductive Confidence where
  | high | medium | low
deriving DecidableEq, Repr

/-- ChartRecommendation from useDataAnalyzer.ts (the TS `yAxis` is
`string | string[]`; single-axis cases are singleton lists here). -/
structure ChartRecommendation where
  type : ChartType
  title : String
  description : String
  confidence : Confidence
  xAxis : Option String := none
  yAxis : List String := []
  category : Option String := none
  value : Option String := none
  source : Option String := none
  target : Option String := none
  fields : List String
deriving DecidableEq

/-- join('、') over field names. -/
def joinNames (ps : List FieldProfile) : String :=
  String.intercalate "、" (ps.map (fun p => p.name))

/-- Rule 1: temporal + numerical → line / area / stepLine.  (The source
guards the area/stepLine pushes with `numerical.length >= 1`, which always
holds here since `slice(0,3)` of a non-empty list is non-empty.) -/
def rule1 (temF numF : List FieldProfile) : List ChartRecommendation :=
  match temF, numF with
  | t :: _, n :: _ =>
    let nums := numF.take 3
    [ { type := .line, title := "趨勢分析",
        description := "追蹤 " ++ joinNames nums ++ " 在 " ++ t.name ++ " 的變化",
        confidence := .high, xAxis := some t.name,
        yAxis := nums.map (fun p => p.name),
        fields := t.name :: nums.map (fun p => p.name) },
      { type := .area, title := "時間序列",
        description := "呈現 " ++ n.name ++ " 隨時間的變化",
        confidence := .high, xAxis := some t.name, yAxis := [n.name],
        fields := [t.name, n.name] },
      { type := .stepLine, title := "階梯線圖",
        description := "呈現 " ++ n.name ++ " 在 " ++ t.name ++ " 的開關狀態變化",
        confidence := .medium, xAxis := some t.name, yAxis := [n.name],
        fields := [t.name, n.name] } ]
  | _, _ => []

/-- Rule 2: categorical + numerical → bar (and pie when few categories). -/
def rule2 (catF numF : List FieldProfile) : List ChartRecommendation :=
  match catF, numF with
  | c :: _, n :: _ =>
    if c.uniqueCount ≤ 20 then
      { type := .bar, title := "類別比較",
        description := "比較不同 " ++ c.name ++ " 的 " ++ n.name,
        confidence := if c.uniqueCount ≤ 10 then .high else .medium,
        category := some c.name, value := some n.name,
        fields := [c.name, n.name] } ::
      (if c.uniqueCount ≤ 8 then
        [ { type := .pie, title := "分佈",
            description := "呈現 " ++ c.name ++ " 的 " ++ n.name ++ " 分佈",
            confidence := .medium, category := some c.name, value := some n.name,
            fields := [c.name, n.name] } ]
      else [])
    else []
  | _, _ => []

/-- Rule 3: a numerical field → radialBar (for percentages / constants) and
always a metric card. -/
def rule3 (numF : List FieldProfile) : List ChartRecommendation :=
  match numF with
  | n :: _ =>
    (if n.isPercentage || n.uniqueCount == 1 then
      [ { type := .radialBar, title := "進度指標",
          description := "以儀表呈現 " ++ n.name,
          confidence := if n.isPercentage then .high else .medium,
          value := some n.name, fields := [n.name] } ]
    else []) ++
    [ { type := .metric, title := "關鍵指標",
        description := "將 " ++ n.name ++ " 作為關鍵指標",
        confidence := .medium, value := some n.name, fields := [n.name] } ]
  | [] => []

/-- Rule 4: ≥2 numerical plus an x candidate → stackedBar
(`xField = temporalFields[0] || categoricalFields[0]`). -/
def rule4 (temF catF numF : List FieldProfile) : List ChartRecommendation :=
  if numF.length ≥ 2 ∧ (temF.length ≥ 1 ∨ catF.length ≥ 1) then
    match temF ++ catF with
    | x :: _ =>
      [ { type := .stackedBar, title := "堆疊比較",
          description := "比較不同 " ++ x.name ++ " 的多個數值欄位組成",
          confidence := .medium, xAxis := some x.name,
          yAxis := (numF.take 3).map (fun p => p.name),
          fields := x.name :: (numF.take 3).map (fun p => p.name) } ]
    | [] => []
  else []

/-- Rule 5: two numerical fields → scatter, three → bubble as well. -/
def rule5 (numF : List FieldProfile) : List ChartRecommendation :=
  match numF with
  | x :: y :: rest =>
    { type := .scatter, title := "相關性分析",
      description := "分析 " ++ x.name ++ " 與 " ++ y.name ++ " 的相關性",
      confidence := .medium, xAxis := some x.name, yAxis := [y.name],
      fields := [x.name, y.name] } ::
    (match rest with
     | z :: _ =>
       [ { type := .bubble, title := "氣泡圖",
           description := "以 " ++ x.name ++ " (X軸)、" ++ y.name ++ " (Y軸) 和 " ++
             z.name ++ " (大小) 展示三維關係",
           confidence := .medium, xAxis := some x.name, yAxis := [y.name, z.name],
           fields := [x.name, y.name, z.name] } ]
     | [] => [])
  | _ => []

/-- Rule 6: categorical with 5‥30 uniques + numerical → dotPlot. -/
def rule6 (catF numF : List FieldProfile) : List ChartRecommendation :=
  match catF, numF with
  | c :: _, n :: _ =>
    if 5 ≤ c.uniqueCount ∧ c.uniqueCount ≤ 30 then
      [ { type := .dotPlot, title := "點圖",
          description := "在不同 " ++ c.name ++ " 上顯示 " ++ n.name ++ " 的分散值",
          confidence := .low, xAxis := some c.name, yAxis := [n.name],
          fields := [c.name, n.name] } ]
    else []
  | _, _ => []

/-- Rule 7: temporal + categorical + numerical → heatmap. -/
def rule7 (temF catF numF : List FieldProfile) : List ChartRecommendation :=
  match temF, catF, numF with
  | t :: _, c :: _, n :: _ =>
    [ { type := .heatmap, title := "熱力圖",
        description := "根據 " ++ n.name ++ " 顯示 " ++ t.name ++ " 與 " ++ c.name ++ " 的模式",
        confidence := .medium, xAxis := some t.name, yAxis := [c.name],
        value := some n.name, fields := [t.name, c.name, n.name] } ]
  | _, _, _ => []

/-- Rule 8: categorical (≥3 uniques) + ≥2 numericals → radar. -/
def rule8 (catF numF : List FieldProfile) : List ChartRecommendation :=
  match catF, numF with
  | c :: _, _ :: _ :: _ =>
    if 3 ≤ c.uniqueCount then
      [ { type := .radar, title := "雷達圖",
          description := "比較不同 " ++ c.name ++ " 的多維度指標",
          confidence := .medium, xAxis := some c.name,
          yAxis := (numF.take 4).map (fun p => p.name),
          fields := c.name :: (numF.take 4).map (fun p => p.name) } ]
    else []
  | _, _ => []

/-- Rule 9: two categoricals + numerical → sankey. -/
def rule9 (catF numF : List FieldProfile) : List ChartRecommendation :=
  match catF, numF with
  | c1 :: c2 :: _, n :: _ =>
    [ { type := .sankey, title := "桑基圖",
        description := "呈現 " ++ c1.name ++ " 到 " ++ c2.name ++ " 的流向與權重",
        confidence := .medium, source := some c1.name, target := some c2.name,
        value := some n.name, fields := [c1.name, c2.name, n.name] } ]
  | _, _ => []

/-- Rule 10: categorical + numerical → treemap. -/
def rule10 (catF numF : List FieldProfile) : List ChartRecommendation :=
  match catF, numF with
  | c :: _, n :: _ =>
    [ { type := .treemap, title := "樹狀圖",
        description := "以區塊大小呈現 " ++ c.name ++ " 的 " ++ n.name ++ " 佔比",
        confidence := .medium, category := some c.name, value := some n.name,
        fields := [c.name, n.name] } ]
  | _, _ => []

/-- Rule 11: temporal + categorical → activity timeline. -/
def rule11 (temF catF : List FieldProfile) : List ChartRecommendation :=
  match temF, catF with
  | t :: _, c :: _ =>
    [ { type := .activity, title := "活動時間軸",
        description := "依時間順序呈現事件", confidence := .low,
        fields := [t.name, c.name] } ]
  | _, _ => []

/-- Rule 12: ≥3 fields → dataGrid. -/
def rule12 (profiles : List FieldProfile) : List ChartRecommendation :=
  if profiles.length ≥ 3 then
    [ { type := .dataGrid, title := "資料表格",
        description := "以表格方式檢視全部資料", confidence := .low,
        fields := (profiles.take 6).map (fun p => p.name) } ]
  else []

/-- The order-preserving partitions of `generateRecommendations`. -/
def numFieldsOf (profiles : List FieldProfile) : List FieldProfile :=
  profiles.filter (fun p => decide (p.type = FieldType.numerical))

/-- Categorical partition. -/
def catFieldsOf (profiles : List FieldProfile) : List FieldProfile :=
  profiles.filter (fun p => decide (p.type = FieldType.categorical))

/-- Temporal partition. -/
def temFieldsOf (profiles : List FieldProfile) : List FieldProfile :=
  profiles.filter (fun p => decide (p.type = FieldType.temporal))

/-- generateRecommendations from useDataAnalyzer.ts: the twelve rule
blocks append their output in source order. -/
def generateRecommendations (profiles : List FieldProfile) : List ChartRecommendation :=
  rule1 (temFieldsOf profiles) (numFieldsOf profiles) ++
  (rule2 (catFieldsOf profiles) (numFieldsOf profiles) ++
  (rule3 (numFieldsOf profiles) ++
  (rule4 (temFieldsOf profiles) (catFieldsOf profiles) (numFieldsOf profiles) ++
  (rule5 (numFieldsOf profiles) ++
  (rule6 (catFieldsOf profiles) (numFieldsOf profiles) ++
  (rule7 (temFieldsOf profiles) (catFieldsOf profiles) (numFieldsOf profiles) ++
  (rule8 (catFieldsOf profiles) (numFieldsOf profiles) ++
  (rule9 (catFieldsOf profiles) (numFieldsOf profiles) ++
  (rule10 (catFieldsOf profiles) (numFieldsOf profiles) ++
  (rule11 (temFieldsOf profiles) (catFieldsOf profiles) ++
  rule12 profiles))))))))))

/-! ### Whole-table analysis (`analyzeData`) -/

/-- DataAnalysis from useDataAnalyzer.ts.  The optional
`isTreeStructure` flag defaults to absent/false. -/
structure DataAnalysis where
  rowCount : Nat
  fieldProfiles : List FieldProfile
  recommendations : List ChartRecommendation
  isTreeStructure : Bool := false

/-- analyzeData from useDataAnalyzer.ts: profiled field names come from
`Object.keys(data[0])` only. -/
def analyzeData (dp : String → Bool) (data : List JSValue) : DataAnalysis :=
  match data with
  | [] => { rowCount := 0, fieldProfiles := [], recommendations := [] }
  | r0 :: _ =>
    let fieldNames := r0.keys
    let fieldProfiles :=
      fieldNames.map (fun n => analyzeField dp n (data.map (fun row => row.getProp n)))
    { rowCount := data.length
      fieldProfiles := fieldProfiles
      recommendations := generateRecommendations fieldProfiles }

/-! ### Structure detectors -/

/-- `firstItem.type === 'boxPlot'`. -/
def typeIsBoxPlot (v : JSValue) : Bool :=
  match v.getProp "type" with
  | .str s => s == "boxPlot"
  | _ => false

/-- `Array.isArray(y) && y.length === 5 && y.every(v => typeof v === 'number')`. -/
def bpYOk (v : JSValue) : Bool :=
  match v with
  | .arr ys => ys.length == 5 && ys.all JSValue.isNumberType
  | _ => false

/-- The format-2 test of the box-plot detector applied to the first array
element: `'x' in firstItem && Array.isArray(firstItem.y)` and the 5-number
check on `firstItem.y`. -/
def bpFlatFirst (first : JSValue) : Bool :=
  first.hasProp "x" && bpYOk (first.getProp "y")

/-- isBoxPlotStructure from useDataAnalyzer.ts.  Format 1 (ApexCharts
series with `type: 'boxPlot'`) returns early only when its inner guards on
the FIRST `data` entry all hold; otherwise control falls through to the
format-2 check on the first array element. -/
def isBoxPlotStructure (d : JSValue) : Bool :=
  match d with
  | .arr (first :: _) =>
    if typeIsBoxPlot first && (first.getProp "data").isArr then
      match first.getProp "data" with
      | .arr (firstBox :: _) =>
        if firstBox.truthy && firstBox.hasProp "x" && (firstBox.getProp "y").isArr then
          bpYOk (firstBox.getProp "y")
        else bpFlatFirst first
      | _ => bpFlatFirst first
    else bpFlatFirst first
  | _ => false

/-- Result record of analyzeBoxPlotStructure. -/
structure BoxPlotInfo where
  seriesName : String
  categories : List String
  boxCount : Nat

/-- analyzeBoxPlotStructure from useDataAnalyzer.ts (applied to the
array elements). -/
def analyzeBoxPlotStructure (data : List JSValue) : BoxPlotInfo :=
  let first := data.headD .vnull
  if typeIsBoxPlot first && (first.getProp "data").isArr then
    let boxData := match first.getProp "data" with | .arr es => es | _ => []
    { seriesName :=
        if (first.getProp "name").truthy then jsDisplay (first.getProp "name") else "Box Plot"
      categories := boxData.map (fun item => jsStrOrEmpty (item.getProp "x"))
      boxCount := boxData.length }
  else
    { seriesName := "Box Plot"
      categories := data.map (fun item => jsStrOrEmpty (item.getProp "x"))
      boxCount := data.length }

/-- `typeof v === 'object' && v !== null` (arrays included). -/
def isObjectType (v : JSValue) : Bool :=
  match v with
  | .obj _ => true
  | .arr _ => true
  | .date _ => true
  | _ => false

/-- Cluster test of the admixture detector, format 1. -/
def admixClusterOk (cluster : JSValue) : Bool :=
  isObjectType cluster &&
  (match cluster.getProp "name" with | .str _ => true | _ => false) &&
  (match cluster.getProp "values" with
   | .arr vs => vs.all JSValue.isNumberType
   | _ => false)

/-- Per-item test of the admixture detector, format 2
(`name` a string, `data` a non-empty all-number array). -/
def admixItemOk (item : JSValue) : Bool :=
  isObjectType item &&
  (match item.getProp "name" with | .str _ => true | _ => false) &&
  (match item.getProp "data" with
   | .arr vs => !vs.isEmpty && vs.all JSValue.isNumberType
   | _ => false)

/-- Substring test (`String.prototype.includes`) for a non-empty needle. -/
def strContains (hay needle : String) : Bool :=
  hay.data.tails.any (fun t => needle.data.isPrefixOf t)

/-- Regex `/^k\d+$/i`. -/
def matchKNum (s : String) : Bool :=
  match s.data with
  | c :: rest => (c == 'k' || c == 'K') && !rest.isEmpty && rest.all Char.isDigit
  | [] => false

/-- The cluster-naming heuristic of the admixture detector. -/
def hasClusterName (items : List JSValue) : Bool :=
  items.any (fun item =>
    let n := jsDisplay (item.getProp "name")
    strContains (strToLower n) "cluster" || strContains (strToLower n) "群集" || matchKNum n)

/-- `item.data` as numbers, with the `|| 0` fallback of the column sums
(`NaN` and out-of-range entries contribute 0). -/
def admixColVal (item : JSValue) (i : Nat) : ℚ :=
  match item.getProp "data" with
  | .arr vs =>
    (match vs.getD i .vnull with
     | .num q => if q ≠ 0 then q else 0
     | _ => 0)
  | _ => 0

/-- Column-sum proportion test of the admixture detector: every sample
column sums to ≈1 (±0.15) or ≈100 (±10). -/
def admixIsProportion (items : List JSValue) (firstDataLength : Nat) : Bool :=
  (List.range firstDataLength).all (fun i =>
    let s := items.foldl (fun acc item => acc + admixColVal item i) (0 : ℚ)
    |s - 1| < mkRat 3 20 ∨ |s - 100| < 10)

/-- Length of `item.data` when it is an array, else 0. -/
def admixDataLen (item : JSValue) : Nat :=
  match item.getProp "data" with
  | .arr vs => vs.length
  | _ => 0

/-- isAdmixtureStructure from useDataAnalyzer.ts. -/
def isAdmixtureStructure (d : JSValue) : Bool :=
  match d with
  | .obj _ =>
    if (d.getProp "samples").isArr && (d.getProp "clusters").isArr then
      let samples := match d.getProp "samples" with | .arr ss => ss | _ => []
      let clusters := match d.getProp "clusters" with | .arr cs => cs | _ => []
      if samples.isEmpty || !samples.all (fun s => match s with | .str _ => true | _ => false) then
        false
      else if clusters.isEmpty then false
      else clusters.all admixClusterOk
    else false
  | .arr items =>
    if items.length ≥ 2 then
      if !items.all admixItemOk then false
      else
        let firstDataLength := admixDataLen (items.headD .vnull)
        if !items.all (fun item => admixDataLen item == firstDataLength) then false
        else hasClusterName items || admixIsProportion items firstDataLength
    else false
  | _ => false

/-- Result record of analyzeAdmixtureStructure. -/
structure AdmixtureInfo where
  sampleCount : Nat
  clusterCount : Nat
  clusterNames : List String
  groupCount : Nat
  isSeriesFormat : Bool

/-- analyzeAdmixtureStructure from useDataAnalyzer.ts. -/
def analyzeAdmixtureStructure (d : JSValue) : AdmixtureInfo :=
  match d with
  | .obj _ =>
    if (d.getProp "samples").isArr && (d.getProp "clusters").isArr then
      let samples := match d.getProp "samples" with | .arr ss => ss | _ => []
      let clusters := match d.getProp "clusters" with | .arr cs => cs | _ => []
      { sampleCount := samples.length
        clusterCount := clusters.length
        clusterNames := clusters.map (fun c => jsDisplay (c.getProp "name"))
        groupCount := match d.getProp "groups" with | .arr gs => gs.length | _ => 0
        isSeriesFormat := false }
    else
      { sampleCount := 0, clusterCount := 0, clusterNames := [], groupCount := 0,
        isSeriesFormat := false }
  | .arr items =>
    { sampleCount := admixDataLen (items.headD .vnull)
      clusterCount := items.length
      clusterNames := items.map (fun item => jsDisplay (item.getProp "name"))
      groupCount := 0
      isSeriesFormat := true }
  | _ =>
    { sampleCount := 0, clusterCount := 0, clusterNames := [], groupCount := 0,
      isSeriesFormat := false }

/-- The name-like keys probed by the tree detector. -/
def treeNameKeys : List String := ["name", "label", "id", "title", "key", "text"]

/-- The children-like keys probed by the tree detector. -/
def treeChildKeys : List String := ["children", "nodes", "items", "branches", "subtree"]

/-- `typeof obj[key] === 'string'` for one of the name keys. -/
def hasNameKey (v : JSValue) : Bool :=
  treeNameKeys.any (fun k => match v.getProp k with | .str _ => true | _ => false)

/-- The first children-like key whose value is an array. -/
def childKeyOf (v : JSValue) : Option String :=
  treeChildKeys.find? (fun k => (v.getProp k).isArr)

/-- isTreeStructure from useDataAnalyzer.ts. -/
def isTreeStructure (d : JSValue) : Bool :=
  match d with
  | .obj _ =>
    match childKeyOf d with
    | some k =>
      if hasNameKey d then
        match d.getProp k with
        | .arr children =>
          if children.isEmpty then false
          else children.any (fun child => isObjectType child && hasNameKey child)
        | _ => false
      else false
    | none => false
  | _ => false

mutual

/-- Structural size of a value (bounds its nesting depth). -/
def JSValue.vsize : JSValue → Nat
  | .vnull => 1
  | .num _ => 1
  | .nan => 1
  | .str _ => 1
  | .bool _ => 1
  | .date _ => 1
  | .arr es => 1 + vsizeList es
  | .obj fs => 1 + vsizeFields fs

/-- Size of a list of values. -/
def vsizeList : List JSValue → Nat
  | [] => 0
  | v :: vs => JSValue.vsize v + vsizeList vs

/-- Size of an object field list. -/
def vsizeFields : List (String × JSValue) → Nat
  | [] => 0
  | p :: ps => JSValue.vsize p.2 + vsizeFields ps

end

/-- One step of the recursive `traverse` of analyzeTreeStructure,
returning `(nodeCount, leafCount, maxDepth)`.  The recursion is fuelled by
the structural size of the value, which bounds its nesting depth, so the
fuel never runs out on the actual argument. -/
def treeTraverse : Nat → JSValue → Nat → Nat × Nat × Nat
  | 0, _, _ => (0, 0, 0)
  | fuel + 1, node, depth =>
    match node with
    | .obj _ =>
      match childKeyOf node with
      | some k =>
        let children := match node.getProp k with | .arr cs => cs | _ => []
        if children.isEmpty then (1, 1, depth)
        else
          children.foldl
            (fun acc child =>
              let r := treeTraverse fuel child (depth + 1)
              (acc.1 + r.1, acc.2.1 + r.2.1, max acc.2.2 r.2.2))
            (1, 0, depth)
      | none => (1, 1, depth)
    | _ => (0, 0, 0)

/-- analyzeTreeStructure from useDataAnalyzer.ts:
`(depth, nodeCount, leafCount)`. -/
def analyzeTreeStructure (d : JSValue) : Nat × Nat × Nat :=
  let r := treeTraverse d.vsize d 0
  (r.2.2, r.1, r.2.1)

/-! ### The stateful composable (`loadJSON` / `loadCSV`) -/

/-- The refs of useDataAnalyzer (`rawData`, `analysis`, `isAnalyzing`,
`error`). -/
structure AnalyzerState where
  rawData : List JSValue
  analysis : Option DataAnalysis
  isAnalyzing : Bool
  error : Option String

/-- Initial ref values of the composable. -/
def initState : AnalyzerState :=
  { rawData := [], analysis := none, isAnalyzing := false, error := none }

/-- Decimal rendering of a count for the hard-coded descriptions. -/
def natStr (n : Nat) : String := toString n

/-- The analysis result built by the box-plot branch of loadJSON. -/
def boxPlotAnalysisOf (d : JSValue) : DataAnalysis :=
  let elems := match d with | .arr es => es | _ => []
  let boxInfo := analyzeBoxPlotStructure elems
  { rowCount := boxInfo.boxCount
    fieldProfiles :=
      [ { name := "x", type := .categorical,
          sampleValues := (boxInfo.categories.take 5).map JSValue.str,
          uniqueCount := boxInfo.boxCount, nullCount := 0 },
        { name := "y", type := .numerical,
          sampleValues := [.str "[min, Q1, median, Q3, max]"],
          uniqueCount := boxInfo.boxCount, nullCount := 0 } ]
    recommendations :=
      [ { type := .boxPlot, title := "盒鬚圖",
          description := boxInfo.seriesName ++ "（" ++ natStr boxInfo.boxCount ++ " 個類別的統計分佈）",
          confidence := .high, fields := ["x", "y"] },
        { type := .bar, title := "長條圖",
          description := "以長條圖呈現各類別數據",
          confidence := .low, fields := ["x", "y"] } ] }

/-- The analysis result built by the admixture branch of loadJSON. -/
def admixtureAnalysisOf (d : JSValue) : DataAnalysis :=
  let info := analyzeAdmixtureStructure d
  { rowCount := info.sampleCount
    fieldProfiles :=
      [ { name := "samples", type := .categorical,
          sampleValues := [.str (natStr info.sampleCount ++ " samples")],
          uniqueCount := info.sampleCount, nullCount := 0 },
        { name := "clusters", type := .numerical,
          sampleValues := (info.clusterNames.take 3).map JSValue.str,
          uniqueCount := info.clusterCount, nullCount := 0 } ]
    recommendations :=
      [ { type := .admixture, title := "遺傳結構圖",
          description := natStr info.sampleCount ++ " 個樣本的 " ++ natStr info.clusterCount ++
            " 個群集組成分析",
          confidence := .high, fields := ["samples", "clusters"] },
        { type := .stackedBar, title := "堆疊長條圖",
          description := "以堆疊長條圖呈現組成比例",
          confidence := .medium, fields := ["samples", "clusters"] } ] }

/-- The analysis result built by the tree branch of loadJSON (note: the
root-name probe uses only the first four name-like keys). -/
def treeAnalysisOf (d : JSValue) : DataAnalysis :=
  let info := analyzeTreeStructure d
  let rootName :=
    match ["name", "label", "id", "title"].find?
      (fun k => match d.getProp k with | .str _ => true | _ => false) with
    | some k => jsDisplay (d.getProp k)
    | none => "Root"
  { rowCount := info.2.1
    fieldProfiles :=
      [ { name := "name", type := .categorical, sampleValues := [.str rootName],
          uniqueCount := info.2.1, nullCount := 0 },
        { name := "children", type := .categorical,
          sampleValues := [.str (natStr info.2.2 ++ " leaves")],
          uniqueCount := info.2.2, nullCount := 0 } ]
    recommendations :=
      [ { type := .phylogenetic, title := "系統發生樹",
          description := "以放射狀樹狀圖呈現階層結構（" ++ natStr info.2.1 ++ " 節點，深度 " ++
            natStr info.1 ++ "）",
          confidence := .high, fields := ["name", "children"] },
        { type := .treemap, title := "樹狀圖",
          description := "以區塊方式呈現階層結構",
          confidence := .medium, fields := ["name", "children"] } ]
    isTreeStructure := true }

/-- The fallback row extraction of loadJSON for a non-array object:
`Object.values(jsonData).find(Array.isArray)`. -/
def firstArrayProp (d : JSValue) : Option (List JSValue) :=
  match d.values.find? JSValue.isArr with
  | some (.arr es) => some es
  | _ => none

/-- loadJSON from useDataAnalyzer.ts as a state transformer.  The `try`
block's only throwing path here is the `Invalid JSON format` error for a
primitive top level; the `catch` stores the message and the `finally`
clears `isAnalyzing`, leaving `rawData`/`analysis` untouched. -/
def loadJSON (dp : String → Bool) (jsonData : JSValue) (s : AnalyzerState) : AnalyzerState :=
  if isBoxPlotStructure jsonData then
    { rawData := match jsonData with | .arr es => es | _ => []
      analysis := some (boxPlotAnalysisOf jsonData)
      isAnalyzing := false, error := none }
  else if isAdmixtureStructure jsonData then
    { rawData := [jsonData], analysis := some (admixtureAnalysisOf jsonData)
      isAnalyzing := false, error := none }
  else if isTreeStructure jsonData then
    { rawData := [jsonData], analysis := some (treeAnalysisOf jsonData)
      isAnalyzing := false, error := none }
  else
    match jsonData with
    | .arr es =>
      { rawData := es, analysis := some (analyzeData dp es)
        isAnalyzing := false, error := none }
    | .obj _ =>
      let data := match firstArrayProp jsonData with
        | some es => es
        | none => [jsonData]
      { rawData := data, analysis := some (analyzeData dp data)
        isAnalyzing := false, error := none }
    | _ =>
      { s with error := some "Invalid JSON format", isAnalyzing := false }

/-- The `replace(/^["']|["']$/g, '')` quote stripping of parseCSV. -/
def stripQuotes (s : String) : String :=
  let cs := s.data
  let cs1 := match cs with
    | c :: rest => if c = '"' ∨ c = '\'' then rest else cs
    | [] => []
  let cs2 := match cs1.reverse with
    | c :: rest => if c = '"' ∨ c = '\'' then rest.reverse else cs1
    | [] => []
  String.mk cs2

/-- One CSV cell: `values[index]` (undefined when missing) with the
numeric conversion `if (!isNaN(Number(value)) && value !== '')`. -/
def csvCell (vs : List String) (i : Nat) : JSValue :=
  match vs.get? i with
  | none => .vnull
  | some raw =>
    match parseJSNumber raw with
    | some q => if raw ≠ "" then .num q else .str raw
    | none => .str raw

/-- parseCSV from useDataAnalyzer.ts. -/
def parseCSV (csvString : String) : List JSValue :=
  let lines := (splitOnChar '\n' (jsTrim csvString).data).map String.mk
  if lines.length < 2 then []
  else
    let headers := ((splitOnChar ',' (lines.headD "").data).map String.mk).map
      (fun h => stripQuotes (jsTrim h))
    (lines.drop 1).map (fun line =>
      let vals := ((splitOnChar ',' line.data).map String.mk).map (fun v => stripQuotes (jsTrim v))
      JSValue.obj (headers.enum.map (fun p => (p.2, csvCell vals p.1))))

/-- loadCSV from useDataAnalyzer.ts as a state transformer: an empty
parse throws `No data found in CSV`, which the catch stores, leaving
`rawData`/`analysis` untouched. -/
def loadCSV (dp : String → Bool) (csvString : String) (s : AnalyzerState) : AnalyzerState :=
  let data := parseCSV csvString
  if data.isEmpty then
    { s with error := some "No data found in CSV", isAnalyzing := false }
  else
    { rawData := data, analysis := some (analyzeData dp data)
      isAnalyzing := false, error := none }

/-! ### Predicates and example inputs used by the claims -/

/-- Index of the `generateRecommendations` rule that emits each chart
type (the detector-only types, which `generateRecommendations` never
emits, get 0). -/
def ruleIdx : ChartType → Nat
  | .line => 1
  | .area => 1
  | .stepLine => 1
  | .bar => 2
  | .pie => 2
  | .radialBar => 3
  | .metric => 3
  | .stackedBar => 4
  | .scatter => 5
  | .bubble => 5
  | .dotPlot => 6
  | .heatmap => 7
  | .radar => 8
  | .sankey => 9
  | .treemap => 10
  | .activity => 11
  | .dataGrid => 12
  | .boxPlot => 0
  | .admixture => 0
  | .phylogenetic => 0

/-- An optional axis binding is covered by the `fields` list. -/
def optCovered (o : Option String) (fs : List String) : Bool :=
  match o with
  | none => true
  | some x => fs.contains x

/-- Every field referenced by the axis bindings of a recommendation is a
member of its `fields` list. -/
def fieldsCover (r : ChartRecommendation) : Bool :=
  optCovered r.xAxis r.fields && r.yAxis.all r.fields.contains &&
  optCovered r.category r.fields && optCovered r.value r.fields &&
  optCovered r.source r.fields && optCovered r.target r.fields

/-- A top-level JSON value that is neither an object nor an array
(`typeof` not `'object'` up to the `null` check), sent by `loadJSON` to
the `Invalid JSON format` throw. -/
def isPrimitiveTop (v : JSValue) : Bool :=
  match v with
  | .arr _ => false
  | .obj _ => false
  | .date _ => false
  | _ => true

/-- Per-entry shape test of the claimed box-plot detector condition:
the entry has `x` and a 5-element all-numeric `y`. -/
def bpEntryOk (e : JSValue) : Bool :=
  e.hasProp "x" && bpYOk (e.getProp "y")

/-- The box-plot detector condition exactly as claim C7 states it
(spec words, for comparison with the implementation): format (a) demands
the `x`/`y` shape of EVERY `data` entry, format (b) of EVERY array
entry. -/
def isBoxPlotStructureClaim (d : JSValue) : Bool :=
  match d with
  | .arr (first :: rest) =>
    (typeIsBoxPlot first &&
      (match first.getProp "data" with
       | .arr ds => !ds.isEmpty && ds.all bpEntryOk
       | _ => false)) ||
    (first :: rest).all bpEntryOk
  | _ => false

/-- The first-element guard chain of format 1 of the implemented
detector: `type === 'boxPlot'`, `data` an array with a truthy first entry
having `x` and an array `y` (the configuration in which the detector
returns from inside the format-1 block). -/
def bpFmt1Engages (first : JSValue) : Bool :=
  typeIsBoxPlot first &&
  (match first.getProp "data" with
   | .arr (firstBox :: _) =>
     firstBox.truthy && firstBox.hasProp "x" && (firstBox.getProp "y").isArr
   | _ => false)

/-- The value returned from inside the format-1 block: the 5-number test
on the `y` of the FIRST `data` entry. -/
def bpFmt1Passes (first : JSValue) : Bool :=
  match first.getProp "data" with
  | .arr (firstBox :: _) => bpYOk (firstBox.getProp "y")
  | _ => false

/-- Date.parse model used to instantiate witnesses: rejects everything
(the claims under verification are independent of the host parser). -/
def dpNone : String → Bool := fun _ => false

/-- The end-to-end example rows of claim C1. -/
def c1rows : List JSValue :=
  [ .obj [("date", .str "2024-01-01"), ("temp", .num 20)],
    .obj [("date", .str "2024-01-02"), ("temp", .num 22)] ]

/-- The tie-break example values of claim C4. -/
def c4values : List JSValue :=
  [.num 1, .num 2, .str "x", .str "y"]

/-- A flat box-plot entry `{x, y:[1,2,3,4,5]}`. -/
def bpFlatEntry (x : String) : JSValue :=
  .obj [("x", .str x), ("y", .arr [.num 1, .num 2, .num 3, .num 4, .num 5])]

/-- Counterexample input for claim C7: the first entry has the box-plot
shape but the second entry has neither `x` nor `y`. -/
def c7input : JSValue :=
  .arr [bpFlatEntry "a", .obj [("z", .num 0)]]

/-- An entry satisfying BOTH the flat box-plot shape and the admixture
series shape (`name` with "Cluster", equal-length numeric `data`). -/
def overlapEntry (x nm : String) : JSValue :=
  .obj [("x", .str x),
        ("y", .arr [.num (mkRat 1 5), .num (mkRat 1 5), .num (mkRat 1 5), .num (mkRat 1 5),
          .num (mkRat 1 5)]),
        ("name", .str nm),
        ("data", .arr [.num (mkRat 1 2), .num (mkRat 1 2)])]

/-- Detector-priority example of claim C3: an array matched by both the
box-plot and the admixture detector. -/
def c3input : JSValue :=
  .arr [overlapEntry "a" "Cluster 1", overlapEntry "b" "Cluster 2"]

/-- A well-formed one-row table, used to produce a successful load before
feeding a malformed input (claim C2). -/
def c2goodInput : JSValue := .arr [.obj [("a", .num 1)]]

/-- State after the successful load for claim C2. -/
def c2state1 : AnalyzerState := loadJSON dpNone c2goodInput initState

/-- State after the subsequent malformed load (top level is a number). -/
def c2state2 : AnalyzerState := loadJSON dpNone (.num 5) c2state1

/-- Rows for claim C10: the key `b` appears only in the second row. -/
def c10rowsLateKey : List JSValue :=
  [ .obj [("a", .num 1)],
    .obj [("a", .num 2), ("b", .num 3)] ]

/-- Rows for claim C10: the first-row key `b` is missing from the second
row. -/
def c10rowsMissingKey : List JSValue :=
  [ .obj [("a", .num 1), ("b", .num 2)],
    .obj [("a", .num 3)] ]

/-- Placeholder recommendation (used only as a `headD` default when
naming a concrete element of a recommendation list). -/
def dummyRec : ChartRecommendation :=
  { type := .metric, title := "", description := "", confidence := .low, fields := [] }

/-- Percentage example values of claim C8. -/
def c8values1 : List JSValue := [.num 0, .num 50, .num 100]

/-- Fractional percentage example values of claim C8. -/
def c8values2 : List JSValue := [.num 0, .num (mkRat 1 2), .num 1]

/-- Negative-minimum example values of claim C8. -/
def c8values3 : List JSValue := [.num (-5), .num 50, .num 100]

/-! ### Helper lemmas -/

theorem contains_of_mem {l : List String} {x : String} (h : x ∈ l) : l.contains x = true :=
  List.elem_iff.mpr h

theorem all_contains {l l2 : List String} (h : ∀ x ∈ l, x ∈ l2) : l.all l2.contains = true := by
  simp only [List.all_eq_true]
  intro y hy
  exact contains_of_mem (h y hy)

theorem sorted_of_all_eq {l : List Nat} {a : Nat} (h : ∀ x ∈ l, x = a) :
    List.Sorted (· ≤ ·) l := by
  induction l with
  | nil => exact List.sorted_nil
  | cons b t ih =>
    rw [List.sorted_cons]
    refine ⟨?_, ih fun x hx => h x (List.mem_cons_of_mem _ hx)⟩
    intro x hx
    rw [h x (List.mem_cons_of_mem _ hx), h b (List.mem_cons_self _ _)]

theorem sorted_block_append {a : Nat} {l1 l2 : List Nat}
    (h1 : ∀ x ∈ l1, x = a) (h2 : List.Sorted (· ≤ ·) l2) (h3 : ∀ x ∈ l2, a ≤ x) :
    List.Sorted (· ≤ ·) (l1 ++ l2) ∧ ∀ x ∈ l1 ++ l2, a ≤ x := by
  constructor
  · exact List.pairwise_append.mpr
      ⟨sorted_of_all_eq h1, h2, fun x hx y hy => by rw [h1 x hx]; exact h3 y hy⟩
  · intro x hx
    rcases List.mem_append.mp hx with h | h
    · rw [h1 x h]
    · exact h3 x h

theorem rule1_mem (tF nF : List FieldProfile) :
    ∀ r ∈ rule1 tF nF, ruleIdx r.type = 1 ∧ fieldsCover r = true := by
  intro r hr
  cases tF with
  | nil => simp [rule1] at hr
  | cons t tr =>
    cases nF with
    | nil => simp [rule1] at hr
    | cons n nr =>
      simp only [rule1, List.mem_cons, List.not_mem_nil, or_false] at hr
      rcases hr with h | h | h <;> subst h
      · refine ⟨rfl, ?_⟩
        simp only [fieldsCover, optCovered, Bool.and_eq_true]
        exact ⟨⟨⟨⟨⟨contains_of_mem (List.mem_cons_self _ _),
          all_contains fun x hx => List.mem_cons_of_mem _ hx⟩, trivial⟩, trivial⟩, trivial⟩, trivial⟩
      · exact ⟨rfl, by simp [fieldsCover, optCovered]⟩
      · exact ⟨rfl, by simp [fieldsCover, optCovered]⟩

theorem rule2_mem (cF nF : List FieldProfile) :
    ∀ r ∈ rule2 cF nF, ruleIdx r.type = 2 ∧ fieldsCover r = true := by
  intro r hr
  cases cF with
  | nil => simp [rule2] at hr
  | cons c cr =>
    cases nF with
    | nil => simp [rule2] at hr
    | cons n nr =>
      by_cases h20 : c.uniqueCount ≤ 20
      · by_cases h8 : c.uniqueCount ≤ 8
        · simp only [rule2, if_pos h20, if_pos h8, List.mem_cons, List.not_mem_nil,
            or_false] at hr
          rcases hr with h | h <;> subst h
          · exact ⟨rfl, by simp [fieldsCover, optCovered]⟩
          · exact ⟨rfl, by simp [fieldsCover, optCovered]⟩
        · simp only [rule2, if_pos h20, if_neg h8, List.mem_cons, List.not_mem_nil,
            or_false] at hr
          subst hr
          exact ⟨rfl, by simp [fieldsCover, optCovered]⟩
      · simp [rule2, if_neg h20] at hr

theorem rule3_mem (nF : List FieldProfile) :
    ∀ r ∈ rule3 nF, ruleIdx r.type = 3 ∧ fieldsCover r = true := by
  intro r hr
  cases nF with
  | nil => simp [rule3] at hr
  | cons n nr =>
    simp only [rule3] at hr
    rcases List.mem_append.mp hr with h | h
    · split at h
      · simp only [List.mem_cons, List.not_mem_nil, or_false] at h
        subst h
        exact ⟨rfl, by simp [fieldsCover, optCovered]⟩
      · simp at h
    · simp only [List.mem_cons, List.not_mem_nil, or_false] at h
      subst h
      exact ⟨rfl, by simp [fieldsCover, optCovered]⟩

theorem rule4_mem (tF cF nF : List FieldProfile) :
    ∀ r ∈ rule4 tF cF nF, ruleIdx r.type = 4 ∧ fieldsCover r = true := by
  intro r hr
  unfold rule4 at hr
  split at hr
  · split at hr
    · simp only [List.mem_cons, List.not_mem_nil, or_false] at hr
      subst hr
      refine ⟨rfl, ?_⟩
      simp only [fieldsCover, optCovered, Bool.and_eq_true]
      exact ⟨⟨⟨⟨⟨contains_of_mem (List.mem_cons_self _ _),
        all_contains fun x hx => List.mem_cons_of_mem _ hx⟩, trivial⟩, trivial⟩, trivial⟩, trivial⟩
    · simp at hr
  · simp at hr

theorem rule5_mem (nF : List FieldProfile) :
    ∀ r ∈ rule5 nF, ruleIdx r.type = 5 ∧ fieldsCover r = true := by
  intro r hr
  match nF with
  | [] => simp [rule5] at hr
  | [x] => simp [rule5] at hr
  | x :: y :: rest =>
    simp only [rule5, List.mem_cons] at hr
    rcases hr with h | h
    · subst h
      exact ⟨rfl, by simp [fieldsCover, optCovered]⟩
    · match rest with
      | [] => simp at h
      | z :: zr =>
        simp only [List.mem_cons, List.not_mem_nil, or_false] at h
        subst h
        exact ⟨rfl, by simp [fieldsCover, optCovered]⟩

theorem rule6_mem (cF nF : List FieldProfile) :
    ∀ r ∈ rule6 cF nF, ruleIdx r.type = 6 ∧ fieldsCover r = true := by
  intro r hr
  cases cF with
  | nil => simp [rule6] at hr
  | cons c cr =>
    cases nF with
    | nil => simp [rule6] at hr
    | cons n nr =>
      simp only [rule6] at hr
      split at hr
      · simp only [List.mem_cons, List.not_mem_nil, or_false] at hr
        subst hr
        exact ⟨rfl, by simp [fieldsCover, optCovered]⟩
      · simp at hr

theorem rule7_mem (tF cF nF : List FieldProfile) :
    ∀ r ∈ rule7 tF cF nF, ruleIdx r.type = 7 ∧ fieldsCover r = true := by
  intro r hr
  match tF, cF, nF with
  | [], _, _ => simp [rule7] at hr
  | _ :: _, [], _ => simp [rule7] at hr
  | _ :: _, _ :: _, [] => simp [rule7] at hr
  | t :: _, c :: _, n :: _ =>
    simp only [rule7, List.mem_cons, List.not_mem_nil, or_false] at hr
    subst hr
    exact ⟨rfl, by simp [fieldsCover, optCovered]⟩

theorem rule8_mem (cF nF : List FieldProfile) :
    ∀ r ∈ rule8 cF nF, ruleIdx r.type = 8 ∧ fieldsCover r = true := by
  intro r hr
  match cF, nF with
  | [], _ => simp [rule8] at hr
  | _ :: _, [] => simp [rule8] at hr
  | _ :: _, [x] => simp [rule8] at hr
  | c :: _, x :: y :: nr =>
    simp only [rule8] at hr
    split at hr
    · simp only [List.mem_cons, List.not_mem_nil, or_false] at hr
      subst hr
      refine ⟨rfl, ?_⟩
      simp only [fieldsCover, optCovered, Bool.and_eq_true]
      exact ⟨⟨⟨⟨⟨contains_of_mem (List.mem_cons_self _ _),
        all_contains fun x hx => List.mem_cons_of_mem _ hx⟩, trivial⟩, trivial⟩, trivial⟩, trivial⟩
    · simp at hr

theorem rule9_mem (cF nF : List FieldProfile) :
    ∀ r ∈ rule9 cF nF, ruleIdx r.type = 9 ∧ fieldsCover r = true := by
  intro r hr
  match cF, nF with
  | [], _ => simp [rule9] at hr
  | [c], _ => simp [rule9] at hr
  | _ :: _ :: _, [] => simp [rule9] at hr
  | c1 :: c2 :: _, n :: _ =>
    simp only [rule9, List.mem_cons, List.not_mem_nil, or_false] at hr
    subst hr
    exact ⟨rfl, by simp [fieldsCover, optCovered]⟩

theorem rule10_mem (cF nF : List FieldProfile) :
    ∀ r ∈ rule10 cF nF, ruleIdx r.type = 10 ∧ fieldsCover r = true := by
  intro r hr
  match cF, nF with
  | [], _ => simp [rule10] at hr
  | _ :: _, [] => simp [rule10] at hr
  | c :: _, n :: _ =>
    simp only [rule10, List.mem_cons, List.not_mem_nil, or_false] at hr
    subst hr
    exact ⟨rfl, by simp [fieldsCover, optCovered]⟩

theorem rule11_mem (tF cF : List FieldProfile) :
    ∀ r ∈ rule11 tF cF, ruleIdx r.type = 11 ∧ fieldsCover r = true := by
  intro r hr
  match tF, cF with
  | [], _ => simp [rule11] at hr
  | _ :: _, [] => simp [rule11] at hr
  | t :: _, c :: _ =>
    simp only [rule11, List.mem_cons, List.not_mem_nil, or_false] at hr
    subst hr
    exact ⟨rfl, by simp [fieldsCover, optCovered]⟩

theorem rule12_mem (ps : List FieldProfile) :
    ∀ r ∈ rule12 ps, ruleIdx r.type = 12 ∧ fieldsCover r = true := by
  intro r hr
  unfold rule12 at hr
  split at hr
  · simp only [List.mem_cons, List.not_mem_nil, or_false] at hr
    subst hr
    exact ⟨rfl, by simp [fieldsCover, optCovered]⟩
  · simp at hr

theorem dominantType_num_of_tie {cn cc ct cu : Nat} (hcc : cc ≤ cn) (hct : ct ≤ cn)
    (hpos : 0 < cn) : dominantType cn cc ct cu = .numerical := by
  simp only [dominantType, List.foldl]
  split_ifs <;> simp_all <;> omega

theorem dominantType_cat_of_tie {cn cc ct cu : Nat} (hcn : cn < cc) (hct : ct ≤ cc) :
    dominantType cn cc ct cu = .categorical := by
  simp only [dominantType, List.foldl]
  split_ifs <;> simp_all <;> omega

theorem takeWhile_all {α : Type} {p : α → Bool} {l : List α} (h : ∀ a ∈ l, p a = true) :
    l.takeWhile p = l ∧ l.dropWhile p = [] := by
  induction l with
  | nil => exact ⟨rfl, rfl⟩
  | cons a t ih =>
    have ha := h a (List.mem_cons_self _ _)
    have ht := ih fun x hx => h x (List.mem_cons_of_mem _ hx)
    constructor
    · rw [List.takeWhile_cons, ha]
      simpa using ht.1
    · rw [List.dropWhile_cons, ha]
      simpa using ht.2

theorem digit_not_sign {c : Char} (h : c.isDigit = true) : c ≠ '+' ∧ c ≠ '-' := by
  constructor <;> rintro rfl <;> simp [Char.isDigit] at h

theorem parseMantissa_digits {cs : List Char} (h1 : cs ≠ []) (h2 : ∀ c ∈ cs, c.isDigit = true) :
    parseMantissa cs = some ((digitsVal cs : ℚ), []) := by
  obtain ⟨ht, hd⟩ := takeWhile_all h2
  simp only [parseMantissa, ht, hd]
  simp [List.isEmpty_iff, h1]

theorem parseJSNumberCore_digits {cs : List Char} (h1 : cs ≠ [])
    (h2 : ∀ c ∈ cs, c.isDigit = true) :
    (parseJSNumberCore cs).isSome = true := by
  cases cs with
  | nil => exact absurd rfl h1
  | cons c cs2 =>
    have hc := digit_not_sign (h2 c (List.mem_cons_self _ _))
    rw [parseJSNumberCore]
    · rw [parseMantissa_digits (List.cons_ne_nil _ _) h2]
      simp [parseExpPart]
    · intro r h
      rw [List.cons.injEq] at h
      exact hc.1 h.1
    · intro r h
      rw [List.cons.injEq] at h
      exact hc.2 h.1

theorem block_map_eq {i : Nat} {b : List ChartRecommendation}
    (hb : ∀ r ∈ b, ruleIdx r.type = i ∧ fieldsCover r = true) :
    ∀ x ∈ b.map fun r => ruleIdx r.type, x = i := by
  intro x hx
  rcases List.mem_map.mp hx with ⟨r, hr, rfl⟩
  exact (hb r hr).1

theorem gen_rule_indices_sorted (ps : List FieldProfile) :
    List.Sorted (· ≤ ·) ((generateRecommendations ps).map fun r => ruleIdx r.type) := by
  have h1 := block_map_eq (rule1_mem (temFieldsOf ps) (numFieldsOf ps))
  have h2 := block_map_eq (rule2_mem (catFieldsOf ps) (numFieldsOf ps))
  have h3 := block_map_eq (rule3_mem (numFieldsOf ps))
  have h4 := block_map_eq (rule4_mem (temFieldsOf ps) (catFieldsOf ps) (numFieldsOf ps))
  have h5 := block_map_eq (rule5_mem (numFieldsOf ps))
  have h6 := block_map_eq (rule6_mem (catFieldsOf ps) (numFieldsOf ps))
  have h7 := block_map_eq (rule7_mem (temFieldsOf ps) (catFieldsOf ps) (numFieldsOf ps))
  have h8 := block_map_eq (rule8_mem (catFieldsOf ps) (numFieldsOf ps))
  have h9 := block_map_eq (rule9_mem (catFieldsOf ps) (numFieldsOf ps))
  have h10 := block_map_eq (rule10_mem (catFieldsOf ps) (numFieldsOf ps))
  have h11 := block_map_eq (rule11_mem (temFieldsOf ps) (catFieldsOf ps))
  have h12 := block_map_eq (rule12_mem ps)
  have H12 := And.intro (sorted_of_all_eq h12) (fun x hx => le_of_eq (h12 x hx).symm)
  have H11 := sorted_block_append h11 H12.1
    (fun x hx => le_trans (by norm_num) (H12.2 x hx))
  have H10 := sorted_block_append h10 H11.1
    (fun x hx => le_trans (by norm_num) (H11.2 x hx))
  have H9 := sorted_block_append h9 H10.1
    (fun x hx => le_trans (by norm_num) (H10.2 x hx))
  have H8 := sorted_block_append h8 H9.1
    (fun x hx => le_trans (by norm_num) (H9.2 x hx))
  have H7 := sorted_block_append h7 H8.1
    (fun x hx => le_trans (by norm_num) (H8.2 x hx))
  have H6 := sorted_block_append h6 H7.1
    (fun x hx => le_trans (by norm_num) (H7.2 x hx))
  have H5 := sorted_block_append h5 H6.1
    (fun x hx => le_trans (by norm_num) (H6.2 x hx))
  have H4 := sorted_block_append h4 H5.1
    (fun x hx => le_trans (by norm_num) (H5.2 x hx))
  have H3 := sorted_block_append h3 H4.1
    (fun x hx => le_trans (by norm_num) (H4.2 x hx))
  have H2 := sorted_block_append h2 H3.1
    (fun x hx => le_trans (by norm_num) (H3.2 x hx))
  have H1 := sorted_block_append h1 H2.1
    (fun x hx => le_trans (by norm_num) (H2.2 x hx))
  simpa only [generateRecommendations, List.map_append] using H1.1

/-! ### Claim theorems -/

/-- C1: on the rows `[{date:"2024-01-01",temp:20},{date:"2024-01-02",temp:22}]`
analyzeData produces exactly the two field profiles date↦temporal and
temp↦numerical, the first three recommendations are line, area and
stepLine, each over fields ["date","temp"], and — for every profile list
and whatever the host date parser accepts — the recommendation list is
ordered by the rule-evaluation index 1..12 (never re-sorted by
confidence). -/
theorem C1_example_and_rule_order (dp : String → Bool) :
    ((analyzeData dp c1rows).fieldProfiles.map fun p => (p.name, p.type)) =
      [("date", FieldType.temporal), ("temp", FieldType.numerical)] ∧
    (((analyzeData dp c1rows).recommendations.take 3).map fun r => (r.type, r.fields)) =
      [(ChartType.line, ["date", "temp"]), (ChartType.area, ["date", "temp"]),
        (ChartType.stepLine, ["date", "temp"])] ∧
    ∀ profiles, List.Sorted (· ≤ ·)
      ((generateRecommendations profiles).map fun r => ruleIdx r.type) :=
  ⟨rfl, rfl, gen_rule_indices_sorted⟩

/-- C1 witness: the profile part evaluated at a concrete date parser. -/
theorem C1_example_and_rule_order_witness :
    ((analyzeData dpNone c1rows).fieldProfiles.map fun p => (p.name, p.type)) =
      [("date", FieldType.temporal), ("temp", FieldType.numerical)] :=
  (C1_example_and_rule_order dpNone).1

/-- C4: equal per-type tallies are resolved in the enumeration order
numerical > categorical > temporal with strict greater-than comparison;
in particular the values [1, 2, "x", "y"] (2 numerical, 2 categorical)
profile as numerical. -/
theorem C4_dominant_type_tie_break :
    (∀ dp name values,
      typeCountOf dp values .categorical ≤ typeCountOf dp values .numerical →
      typeCountOf dp values .temporal ≤ typeCountOf dp values .numerical →
      0 < typeCountOf dp values .numerical →
      (analyzeField dp name values).type = .numerical) ∧
    (∀ dp name values,
      typeCountOf dp values .numerical < typeCountOf dp values .categorical →
      typeCountOf dp values .temporal ≤ typeCountOf dp values .categorical →
      (analyzeField dp name values).type = .categorical) ∧
    (analyzeField dpNone "f" c4values).type = .numerical := by
  refine ⟨?_, ?_, ?_⟩
  · intro dp name values hcc hct hpos
    exact dominantType_num_of_tie hcc hct hpos
  · intro dp name values hcn hct
    exact dominantType_cat_of_tie hcn hct
  · rfl

/-- C4 witness: the tie-break implication applied to the example
values. -/
theorem C4_dominant_type_tie_break_witness :
    (analyzeField dpNone "g" c4values).type = .numerical :=
  C4_dominant_type_tie_break.1 dpNone "g" c4values (by decide) (by decide) (by decide)

/-- C5: "2024-01-15" is temporal, "42" is numerical, and "20240115" is
numerical — not temporal — whatever the host Date.parse accepts, because
the numeric parse is checked before the date patterns; in general any
non-empty string whose trimmed form is purely digits classifies as
numerical (so a digits-only Date.parse-accepted string is never
temporal). -/
theorem C5_detect_value_type_boundaries :
    (∀ dp, detectValueType dp (.str "2024-01-15") = .temporal) ∧
    (∀ dp, detectValueType dp (.str "42") = .numerical) ∧
    (∀ dp, detectValueType dp (.str "20240115") = .numerical) ∧
    (∀ dp s, s ≠ "" → isPureDigits (jsTrim s).data = true →
      detectValueType dp (.str s) = .numerical) := by
  refine ⟨fun dp => rfl, fun dp => rfl, fun dp => rfl, ?_⟩
  intro dp s hs hdig
  simp only [isPureDigits, Bool.and_eq_true, Bool.not_eq_true', List.all_eq_true] at hdig
  obtain ⟨hemp, hall⟩ := hdig
  have hne : (jsTrim s).data ≠ [] := by
    intro h
    rw [h] at hemp
    simp at hemp
  have hcore := parseJSNumberCore_digits hne hall
  have htrimne : jsTrim s ≠ "" := by
    intro h
    exact hne (by rw [h])
  simp only [detectValueType, if_neg hs, if_pos (And.intro hcore htrimne)]

/-- C5 witness: the pure-digits clause applied to a 7-digit string. -/
theorem C5_detect_value_type_boundaries_witness :
    detectValueType dpNone (.str "1234567") = .numerical :=
  C5_detect_value_type_boundaries.2.2.2 dpNone "1234567" (by decide) (by decide)

/-- C8: for a numerical-dominant field with at least one parseable
number, isPercentage holds exactly when (min≥0 ∧ max≤100) ∨
(min≥0 ∧ max≤1); the values [0,50,100] and [0,0.5,1] give true and
[-5,50,100] gives false. -/
theorem C8_percentage_heuristic :
    (∀ dp name values mn mx,
      (analyzeField dp name values).type = .numerical →
      (analyzeField dp name values).min = some mn →
      (analyzeField dp name values).max = some mx →
      ((analyzeField dp name values).isPercentage = true ↔
        ((0 ≤ mn ∧ mx ≤ 100) ∨ (0 ≤ mn ∧ mx ≤ 1)))) ∧
    (analyzeField dpNone "v" c8values1).isPercentage = true ∧
    (analyzeField dpNone "v" c8values2).isPercentage = true ∧
    (analyzeField dpNone "v" c8values3).isPercentage = false := by
  refine ⟨?_, rfl, rfl, rfl⟩
  intro dp name values mn mx _ hmin hmax
  have hmin' : fieldMin dp values = some mn := hmin
  have hmax' : fieldMax dp values = some mx := hmax
  show fieldIsPercentage dp values = true ↔ _
  rw [fieldIsPercentage, hmin', hmax']
  simp

/-- C8 witness: the equivalence applied to the values [0,50,100]. -/
theorem C8_percentage_heuristic_witness :
    (analyzeField dpNone "v" c8values1).isPercentage = true ↔
      ((0 ≤ (0 : ℚ) ∧ (100 : ℚ) ≤ 100) ∨ (0 ≤ (0 : ℚ) ∧ (100 : ℚ) ≤ 1)) :=
  C8_percentage_heuristic.1 dpNone "v" c8values1 0 100 (by decide) (by decide) (by decide)

/-- C9: analyzeData on an empty row array returns exactly the empty
analysis record, and loadCSV on text with fewer than two lines (no data
row) parses to the empty list and stores the error
"No data found in CSV". -/
theorem C9_empty_inputs :
    (∀ dp, analyzeData dp [] =
      { rowCount := 0, fieldProfiles := [], recommendations := [] }) ∧
    (∀ text, (splitOnChar '\n' (jsTrim text).data).length < 2 → parseCSV text = []) ∧
    (∀ dp text s, (splitOnChar '\n' (jsTrim text).data).length < 2 →
      loadCSV dp text s =
        { s with error := some "No data found in CSV", isAnalyzing := false }) ∧
    parseCSV "singleline" = [] ∧
    (∀ dp s, loadCSV dp "singleline" s =
      { s with error := some "No data found in CSV", isAnalyzing := false }) := by
  have hparse : ∀ text, (splitOnChar '\n' (jsTrim text).data).length < 2 →
      parseCSV text = [] := by
    intro text h
    simp only [parseCSV, List.length_map]
    rw [if_pos h]
  refine ⟨fun dp => rfl, hparse, ?_, rfl, fun dp s => rfl⟩
  intro dp text s h
  simp [loadCSV, hparse text h]

/-- C9 witness: the small-input clause applied to a one-line text. -/
theorem C9_empty_inputs_witness :
    loadCSV dpNone "singleline" initState =
      { initState with error := some "No data found in CSV", isAnalyzing := false } :=
  C9_empty_inputs.2.2.1 dpNone "singleline" initState (by decide)

/-- C10: for a non-empty row list the profiled fields are exactly the
keys of the first row, in order: a key first appearing in a later row
yields no profile, while a first-row key missing later is profiled with
the missing occurrences counted as nulls. -/
theorem C10_fields_from_first_row :
    (∀ dp (r0 : JSValue) (rest : List JSValue),
      ((analyzeData dp (r0 :: rest)).fieldProfiles.map fun p => p.name) = r0.keys) ∧
    ((analyzeData dpNone c10rowsLateKey).fieldProfiles.map fun p => p.name) = ["a"] ∧
    ((analyzeData dpNone c10rowsMissingKey).fieldProfiles.map
      fun p => (p.name, p.nullCount)) = [("a", 0), ("b", 1)] := by
  refine ⟨?_, rfl, rfl⟩
  intro dp r0 rest
  simp only [analyzeData, List.map_map]
  have hcomp :
      ((fun p => p.name) ∘
        fun n => analyzeField dp n ((r0 :: rest).map fun row => row.getProp n)) =
      fun n => n :=
    funext fun n => rfl
  rw [hcomp]
  simp

/-- C10 witness: the first-row-keys equation at concrete rows. -/
theorem C10_fields_from_first_row_witness :
    ((analyzeData dpNone (c10rowsLateKey.headD .vnull :: c10rowsLateKey.tail)).fieldProfiles.map
      fun p => p.name) = (c10rowsLateKey.headD .vnull).keys :=
  C10_fields_from_first_row.1 dpNone (c10rowsLateKey.headD .vnull) c10rowsLateKey.tail

/-- C2 counterexample: after a successful load, feeding the malformed
top-level value `5` to loadJSON stores the error string but RETAINS the
previous analysis — it is not cleared to empty/null as claimed. -/
theorem C2_counterexample_analysis_retained :
    c2state2.error = some "Invalid JSON format" ∧
    c2state2.analysis = c2state1.analysis ∧
    c2state1.analysis.isSome = true :=
  ⟨rfl, rfl, rfl⟩

/-- C2 (amended): for malformed input no exception propagates and the
failure is captured in the error string, but `analysis` (and `rawData`)
keep their previous values instead of being cleared. -/
theorem C2_amended_error_recovery :
    (∀ dp d s, isPrimitiveTop d = true →
      loadJSON dp d s =
        { s with error := some "Invalid JSON format", isAnalyzing := false }) ∧
    (∀ dp text s, parseCSV text = [] →
      loadCSV dp text s =
        { s with error := some "No data found in CSV", isAnalyzing := false }) := by
  constructor
  · intro dp d s h
    cases d <;> first | rfl | simp [isPrimitiveTop] at h
  · intro dp text s h
    simp [loadCSV, h]

/-- C2 witness: the loadJSON clause applied to the number 5. -/
theorem C2_amended_error_recovery_witness :
    loadJSON dpNone (.num 5) initState =
      { initState with error := some "Invalid JSON format", isAnalyzing := false } :=
  C2_amended_error_recovery.1 dpNone (.num 5) initState rfl

/-- C3: the three structure detectors short-circuit in the fixed order
box-plot, admixture, tree, before generic tabular profiling; the overlap
example (flat box-plot entries that also form an admixture series) is
classified as box-plot. -/
theorem C3_detector_priority :
    (∀ dp d s, isBoxPlotStructure d = true →
      (loadJSON dp d s).analysis = some (boxPlotAnalysisOf d)) ∧
    (∀ dp d s, isBoxPlotStructure d = false → isAdmixtureStructure d = true →
      (loadJSON dp d s).analysis = some (admixtureAnalysisOf d)) ∧
    (∀ dp d s, isBoxPlotStructure d = false → isAdmixtureStructure d = false →
      isTreeStructure d = true →
      (loadJSON dp d s).analysis = some (treeAnalysisOf d)) ∧
    isBoxPlotStructure c3input = true ∧
    isAdmixtureStructure c3input = true ∧
    (∀ dp s, ((loadJSON dp c3input s).analysis.map fun a =>
      a.recommendations.map fun r => r.type) = some [.boxPlot, .bar]) := by
  refine ⟨?_, ?_, ?_, rfl, rfl, fun dp s => rfl⟩
  · intro dp d s h
    simp [loadJSON, h]
  · intro dp d s h1 h2
    simp [loadJSON, h1, h2]
  · intro dp d s h1 h2 h3
    simp [loadJSON, h1, h2, h3]

/-- C3 witness: the box-plot short-circuit applied to the overlap
input. -/
theorem C3_detector_priority_witness :
    (loadJSON dpNone c3input initState).analysis = some (boxPlotAnalysisOf c3input) :=
  C3_detector_priority.1 dpNone c3input initState rfl

/-- C6: every recommendation emitted — by the rule engine or by a
structure-detector short-circuit path — references in its
xAxis/yAxis/category/value/source/target bindings only field names
listed in its own `fields` array. -/
theorem C6_recommendation_field_coverage :
    (∀ profiles, ∀ r ∈ generateRecommendations profiles, fieldsCover r = true) ∧
    (∀ d, ∀ r ∈ (boxPlotAnalysisOf d).recommendations, fieldsCover r = true) ∧
    (∀ d, ∀ r ∈ (admixtureAnalysisOf d).recommendations, fieldsCover r = true) ∧
    (∀ d, ∀ r ∈ (treeAnalysisOf d).recommendations, fieldsCover r = true) := by
  refine ⟨?_, ?_, ?_, ?_⟩
  · intro ps r hr
    simp only [generateRecommendations, List.mem_append] at hr
    rcases hr with h | h | h | h | h | h | h | h | h | h | h | h
    · exact (rule1_mem _ _ r h).2
    · exact (rule2_mem _ _ r h).2
    · exact (rule3_mem _ r h).2
    · exact (rule4_mem _ _ _ r h).2
    · exact (rule5_mem _ r h).2
    · exact (rule6_mem _ _ r h).2
    · exact (rule7_mem _ _ _ r h).2
    · exact (rule8_mem _ _ r h).2
    · exact (rule9_mem _ _ r h).2
    · exact (rule10_mem _ _ r h).2
    · exact (rule11_mem _ _ r h).2
    · exact (rule12_mem _ r h).2
  · intro d r hr
    simp only [boxPlotAnalysisOf, List.mem_cons, List.not_mem_nil, or_false] at hr
    rcases hr with rfl | rfl <;> rfl
  · intro d r hr
    simp only [admixtureAnalysisOf, List.mem_cons, List.not_mem_nil, or_false] at hr
    rcases hr with rfl | rfl <;> rfl
  · intro d r hr
    simp only [treeAnalysisOf, List.mem_cons, List.not_mem_nil, or_false] at hr
    rcases hr with rfl | rfl <;> rfl

/-- C6 witness: coverage of the first recommendation generated for the
C1 example profiles. -/
theorem C6_recommendation_field_coverage_witness :
    fieldsCover ((generateRecommendations
      (analyzeData dpNone c1rows).fieldProfiles).headD dummyRec) = true :=
  C6_recommendation_field_coverage.1 (analyzeData dpNone c1rows).fieldProfiles
    ((generateRecommendations (analyzeData dpNone c1rows).fieldProfiles).headD dummyRec)
    (by decide)

/-- C7 counterexample: on the array whose first entry is a box-plot
record but whose second entry has neither `x` nor `y`, the implemented
detector answers true while the claimed every-entry condition fails. -/
theorem C7_counterexample_second_entry_ignored :
    isBoxPlotStructure c7input = true ∧ isBoxPlotStructureClaim c7input = false :=
  ⟨rfl, rfl⟩

theorem isBoxPlot_first_only (f : JSValue) (rs : List JSValue) :
    isBoxPlotStructure (.arr (f :: rs)) =
      ((bpFmt1Engages f && bpFmt1Passes f) || (!bpFmt1Engages f && bpFlatFirst f)) := by
  simp only [isBoxPlotStructure, bpFmt1Engages, bpFmt1Passes]
  cases hd : f.getProp "data" with
  | arr es =>
    cases es with
    | nil => cases hb : typeIsBoxPlot f <;> simp [JSValue.isArr]
    | cons fb rest =>
      cases hb : typeIsBoxPlot f with
      | false => simp [JSValue.isArr]
      | true =>
        cases htr : fb.truthy <;> cases hx : fb.hasProp "x" <;>
          cases hy : (fb.getProp "y").isArr <;>
          simp only [JSValue.isArr] at hy <;>
          simp [JSValue.isArr, htr, hx, hy]
  | vnull => simp [JSValue.isArr]
  | num q => simp [JSValue.isArr]
  | nan => simp [JSValue.isArr]
  | str s => simp [JSValue.isArr]
  | bool b => simp [JSValue.isArr]
  | date b => simp [JSValue.isArr]
  | obj fs => simp [JSValue.isArr]

/-- C7 (amended): the detector inspects only the FIRST array element
(and only the FIRST entry of its `data` array): it returns true exactly
when that first element either passes the engaged format-1 check on its
first data entry, or — format 1 not engaging — itself has `x` and a
5-element all-numeric `y`. -/
theorem C7_amended_first_element_detector (d : JSValue) :
    isBoxPlotStructure d = true ↔
      ∃ first rest, d = .arr (first :: rest) ∧
        ((bpFmt1Engages first = true ∧ bpFmt1Passes first = true) ∨
          (bpFmt1Engages first = false ∧ bpFlatFirst first = true)) := by
  cases d with
  | arr es =>
    cases es with
    | nil => simp [isBoxPlotStructure]
    | cons f rs =>
      rw [isBoxPlot_first_only]
      simp [Bool.or_eq_true, Bool.and_eq_true, Bool.not_eq_true']
  | vnull => simp [isBoxPlotStructure]
  | num q => simp [isBoxPlotStructure]
  | nan => simp [isBoxPlotStructure]
  | str s => simp [isBoxPlotStructure]
  | bool b => simp [isBoxPlotStructure]
  | date b => simp [isBoxPlotStructure]
  | obj fs => simp [isBoxPlotStructure]

/-- C7 witness: the amended characterization instantiated at the
counterexample input. -/
theorem C7_amended_first_element_detector_witness :
    isBoxPlotStructure c7input = true ↔
      ∃ first rest, c7input = .arr (first :: rest) ∧
        ((bpFmt1Engages first = true ∧ bpFmt1Passes first = true) ∨
          (bpFmt1Engages first = false ∧ bpFlatFirst first = true)) :=
  C7_amended_first_element_detector c7input

end DashboardTest
